import Mathlib

set_option maxRecDepth 80000

/-!
Verification of the detox-hook oracle scripts.

This development is a shallow embedding of the Python oracle and swap scripts
of this repository (`fix-oracle.py`, `oracle-fix-working.py`,
`packages/foundry/scripts-python/pythonUpdate.py`,
`packages/foundry/scripts-python/updateSwapRouter.py`,
`packages/foundry/scripts-python/uni-router.py`) together with proofs about
the spec's testable properties.

The scripts are straight-line request/response flows; each is embedded as a
pure function from an environment record (the responses the remote chain and
the Hermes feed service would give) to the script's result plus a count of
its externally visible effects (feed fetches, raw-transaction broadcasts).

Where the Python code computes on `float` values (for example
`price_val * (10 ** expo)` with a negative exponent, or
`int(gas_price * 1.2)`), the embedding models IEEE-754 binary64 arithmetic
exactly over unreduced integer fractions: `PreRat.roundDouble` maps a
fraction to the nearest binary64 value (round-to-nearest, ties-to-even) for
arguments in the binary64 normal range, the only range these scripts touch.
Python strings are modelled as `List Char`.
-/

/-- Unsigned base-2 logarithm with explicit fuel so the kernel can evaluate
it by structural recursion.  `log2Fuel fuel n` equals the floor of the base-2
logarithm of `n` for `n ≥ 1` whenever `fuel` bounds the number of halvings
(all uses here pass fuel 512 for values far below `2 ^ 512`). -/
def log2Fuel : Nat → Nat → Nat
  | 0, _ => 0
  | fuel + 1, n => if 2 ≤ n then log2Fuel fuel (n / 2) + 1 else 0

/-- Exact rational numbers as unreduced numerator/denominator pairs.  The
denominator is a `Nat` and is positive in every value this file builds (the
operations below multiply denominators that start at powers of 2, 5 or 10).
No gcd normalisation happens, so every operation reduces in the kernel. -/
structure PreRat where
  n : ℤ
  d : ℕ
  deriving DecidableEq, Repr

namespace PreRat

/-- Rational value denoted by a fraction. -/
def toQ (a : PreRat) : ℚ := (a.n : ℚ) / (a.d : ℚ)

/-- Fraction denoting an integer. -/
def ofInt (n : ℤ) : PreRat := ⟨n, 1⟩

/-- Product of two fractions. -/
def mul (a b : PreRat) : PreRat := ⟨a.n * b.n, a.d * b.d⟩

/-- Division of a fraction by a positive natural number. -/
def divN (a : PreRat) (k : ℕ) : PreRat := ⟨a.n, a.d * k⟩

/-- Negation of a fraction. -/
def neg (a : PreRat) : PreRat := ⟨-a.n, a.d⟩

/-- Difference of two fractions. -/
def sub (a b : PreRat) : PreRat := ⟨a.n * (b.d : ℤ) - b.n * (a.d : ℤ), a.d * b.d⟩

/-- Strict order test by cross multiplication (valid for positive
denominators, which all values in this file have). -/
def blt (a b : PreRat) : Bool := decide (a.n * (b.d : ℤ) < b.n * (a.d : ℤ))

/-- Non-strict order test by cross multiplication. -/
def ble (a b : PreRat) : Bool := decide (a.n * (b.d : ℤ) ≤ b.n * (a.d : ℤ))

/-- Multiplication by an integer power of two. -/
def mulPow2 (a : PreRat) (e : ℤ) : PreRat :=
  if 0 ≤ e then ⟨a.n * ((2 ^ e.toNat : ℕ) : ℤ), a.d⟩
  else ⟨a.n, a.d * 2 ^ (-e).toNat⟩

/-- Fraction denoting an integer power of two. -/
def pow2 (e : ℤ) : PreRat := mulPow2 ⟨1, 1⟩ e

/-- Floor of a nonnegative fraction. -/
def floorNonneg (a : PreRat) : ℤ := ((a.n.toNat / a.d : ℕ) : ℤ)

/-- One half. -/
def half : PreRat := ⟨1, 2⟩

/-- Round a nonnegative fraction to the nearest integer, ties to even. -/
def roundHalfEven (a : PreRat) : ℤ :=
  let f := a.floorNonneg
  let r := a.sub (ofInt f)
  if r.blt half then f
  else if half.blt r then f + 1
  else if f % 2 = 0 then f else f + 1

/-- Floor of the base-2 logarithm of a positive fraction: the unique `e`
with `2 ^ e ≤ a < 2 ^ (e + 1)`.  The first guess from the component
logarithms is off by at most one and is corrected by comparison. -/
def floorLog2 (a : PreRat) : ℤ :=
  let e0 : ℤ := (log2Fuel 512 a.n.toNat : ℤ) - (log2Fuel 512 a.d : ℤ)
  if a.blt (pow2 e0) then e0 - 1
  else if (pow2 (e0 + 1)).ble a then e0 + 1
  else e0

/-- Nearest binary64 value to a positive fraction under round-to-nearest
ties-to-even: scale into `[2 ^ 52, 2 ^ 53)`, round the significand, and
scale back. -/
def roundPos (a : PreRat) : PreRat :=
  let e := a.floorLog2
  let m := roundHalfEven (a.mulPow2 (52 - e))
  (ofInt m).mulPow2 (e - 52)

/-- Nearest IEEE-754 binary64 value to a fraction, under round-to-nearest
ties-to-even, for arguments in the binary64 normal range (all values these
scripts compute are normal; overflow and subnormals are outside the
modelled range). -/
def roundDouble (a : PreRat) : PreRat :=
  if a.n = 0 then ⟨0, 1⟩
  else if 0 < a.n then a.roundPos
  else (a.neg.roundPos).neg

/-- Python's `int(x)` applied to a nonnegative float value: truncation. -/
def pyTrunc (a : PreRat) : ℤ := a.floorNonneg

/-- The binary64 value of the Python literal `1.2`. -/
def double1_2 : PreRat := roundDouble ⟨6, 5⟩

/-- Python's `int(m * 1.2)` for a nonnegative machine integer `m`, as in
`pythonUpdate.py` and `updateSwapRouter.py` (`int(w3.eth.gas_price * 1.2)`
and `int(gas_estimate * 1.2)`): the integer is converted to binary64, the
product with the double `1.2` is rounded to binary64, and `int` truncates. -/
def pyMul1_2 (m : ℕ) : ℤ :=
  pyTrunc (roundDouble ((roundDouble (ofInt (m : ℤ))).mul double1_2))

end PreRat

/-- CPython's value of `10 ** e` for an integer `e`: an exact integer for
`e ≥ 0` and a binary64 float for `e < 0` (for the exponents these scripts
meet, CPython returns the correctly rounded double). -/
def pyPow10 (e : ℤ) : PreRat :=
  if 0 ≤ e then PreRat.ofInt ((10 ^ e.toNat : ℕ) : ℤ)
  else PreRat.roundDouble ⟨1, 10 ^ (-e).toNat⟩

/-- Python's evaluation of `price_val * (10 ** expo)` as written in
`fix-oracle.py` (`fetch_hermes_data`, line 166), `pythonUpdate.py`
(`fetch_eth_price`, line 159), `uni-router.py` (`fetch_pyth_price`,
line 132) and `updateSwapRouter.py` (`fetch_pyth_data`, line 144): exact
integer arithmetic when `expo ≥ 0`; when `expo < 0` the right factor is a
float, so the integer is converted to binary64 and the product is rounded
to binary64. -/
def hermesDerivedPrice (priceVal : ℤ) (expo : ℤ) : PreRat :=
  if 0 ≤ expo then PreRat.ofInt (priceVal * ((10 ^ expo.toNat : ℕ) : ℤ))
  else PreRat.roundDouble ((PreRat.roundDouble (PreRat.ofInt priceVal)).mul (pyPow10 expo))

/-- Python's evaluation of `conf_val * (10 ** expo)` (`fix-oracle.py`
line 167): the confidence is scaled by the very same expression as the
price. -/
def hermesDerivedConf (confVal : ℤ) (expo : ℤ) : PreRat :=
  if 0 ≤ expo then PreRat.ofInt (confVal * ((10 ^ expo.toNat : ℕ) : ℤ))
  else PreRat.roundDouble ((PreRat.roundDouble (PreRat.ofInt confVal)).mul (pyPow10 expo))

/-- The spec's formula for the derived price, exactly as worded: rawPrice
times ten to the exponent, computed exactly as integer arithmetic scaled by
a power of ten.  Stated over ℚ so negative exponents stay exact. -/
def specDerivedPrice (rawPrice : ℤ) (exponent : ℤ) : ℚ :=
  if 0 ≤ exponent then (rawPrice : ℚ) * ((10 ^ exponent.toNat : ℕ) : ℚ)
  else (rawPrice : ℚ) / ((10 ^ (-exponent).toNat : ℕ) : ℚ)

/-- Displayed derived price of `oracle-fix-working.py` (`fetch_hermes_data`,
lines 140-141): `price / 1e8`, a binary64 division of the raw price by the
float literal `1e8`, ignoring the response's exponent field. -/
def workingDisplayedPrice (priceVal : ℤ) : PreRat :=
  PreRat.roundDouble ((PreRat.roundDouble (PreRat.ofInt priceVal)).divN (10 ^ 8))

example : PreRat.toQ (hermesDerivedPrice 3 2) = 300 := by
  have h : hermesDerivedPrice 3 2 = ⟨300, 1⟩ := by decide
  rw [h]
  norm_num [PreRat.toQ]

/-- Whitespace characters stripped by Python's `str.strip()` (the ASCII
ones; the keys these scripts handle are ASCII). -/
def isPySpace (c : Char) : Bool := c ∈ [' ', '\t', '\n', '\r', '\x0b', '\x0c']

/-- Hexadecimal digits, as in the membership test
`c in '0123456789abcdefABCDEF'` of `fix-oracle.py` line 59. -/
def isHexChar (c : Char) : Bool := c ∈ "0123456789abcdefABCDEF".data

/-- Lowercase hexadecimal digits, as in the membership test
`c in '0123456789abcdef'` of `uni-router.py` lines 364 and 382. -/
def isLowerHexChar (c : Char) : Bool := c ∈ "0123456789abcdef".data

/-- Python's `str.strip()`: drop whitespace from both ends. -/
def pyStrip (l : List Char) : List Char :=
  ((l.dropWhile isPySpace).reverse.dropWhile isPySpace).reverse

/-- Python's `s[2:] if s.startswith('0x') else s` pattern used by
`fix-oracle.py` lines 47-48, `pythonUpdate.py` lines 320-321 and
`updateSwapRouter.py` lines 260-261. -/
def drop0xHead (l : List Char) : List Char :=
  if l.take 2 = ['0', 'x'] then l.drop 2 else l

/-- Python's `s.replace('0x', '')` used by `uni-router.py` lines 363 and
381: delete every non-overlapping occurrence of the two-character pattern,
scanning left to right. -/
def pyReplace0x : List Char → List Char
  | [] => []
  | [c] => [c]
  | c :: c' :: rest =>
    if c = '0' ∧ c' = 'x' then pyReplace0x rest
    else c :: pyReplace0x (c' :: rest)

/-- Lowercase an ASCII character, as Python's `str.lower()` does on the
ASCII addresses and keys these scripts handle. -/
def pyLowerChar (c : Char) : Char :=
  if 'A' ≤ c ∧ c ≤ 'Z' then Char.ofNat (c.toNat + 32) else c

/-- Python's `str.lower()`. -/
def pyLower (l : List Char) : List Char := l.map pyLowerChar

/-- Python's `<` on strings: lexicographic comparison of code points. -/
def pyStrLt : List Char → List Char → Bool
  | [], [] => false
  | [], _ :: _ => true
  | _ :: _, [] => false
  | a :: as, b :: bs =>
    if a.toNat < b.toNat then true
    else if b.toNat < a.toNat then false
    else pyStrLt as bs

/-- Transaction request as built by `build_transaction` in the scripts:
value, gas limit, gas price and nonce (all in wei / gas units). -/
structure TxRequest where
  value : ℕ
  gas : ℕ
  gasPrice : ℕ
  nonce : ℕ
  deriving DecidableEq, Repr

/-- Externally visible effects of one script run: how many Hermes feed
fetches and how many raw-transaction broadcasts
(`w3.eth.send_raw_transaction`) happened. -/
structure TxEffects where
  fetches : ℕ
  sends : ℕ
  deriving DecidableEq, Repr

/-- Result of the module-level credential validation. -/
inductive StartupResult
  | ok (address : List Char)
  | configError
  deriving DecidableEq

namespace fixOracle

/-- Responses the outside world would give one run of `fix-oracle.py`:
whether `getPriceUnsafe` succeeds before and after the update, whether the
Hermes fetch yields data, the `getUpdateFee` answer (`none` models a
revert), the gas estimate (`none` models estimation failure), market gas
price, nonce, balance, and the receipt of a sent update transaction
(`none` models a confirmation timeout). -/
structure Env where
  readOk : Bool
  readOkAfter : Bool
  fetchOk : Bool
  fee : Option ℕ
  gasEstimate : Option ℕ
  gasPrice : ℕ
  nonce : ℕ
  balance : ℕ
  receiptStatus : Option Bool
  deriving DecidableEq, Repr

/-- Key cleaning of `fix-oracle.py` lines 45-48: strip whitespace, then
remove a single leading `0x`. -/
def cleanKey (key : List Char) : List Char := drop0xHead (pyStrip key)

/-- Module-level credential validation of `fix-oracle.py` lines 44-74:
clean the key, require exactly 64 hex characters, derive the account
address (`derive` stands for `Account.from_key`, a function of the 32 key
bytes) and require it to match the configured wallet case-insensitively.
Any failure prints an error and exits with code 1 before any chain or feed
request. -/
def validateStartup (derive : List Char → List Char) (key wallet : List Char) :
    StartupResult :=
  let ck := cleanKey key
  if ck.length ≠ 64 then .configError
  else if !(ck.all isHexChar) then .configError
  else
    let addr := derive ck
    if pyLower addr = pyLower wallet then .ok addr else .configError

/-- The update transaction built by `update_price_feed` (lines 291-297):
value is the quoted fee, the gas limit is the estimate (or the fallback
150000 when estimation failed, line 284) plus a 50000 buffer, and the gas
price is the unbuffered market gas price (line 287). -/
def buildTx (env : Env) (fee : ℕ) : TxRequest :=
  { value := fee
    gas := env.gasEstimate.getD 150000 + 50000
    gasPrice := env.gasPrice
    nonce := env.nonce }

/-- `update_price_feed` of `fix-oracle.py` lines 242-341: quote the fee
(a revert is caught and reported as failure), build the transaction, fail
without sending if the balance does not cover gas times gas price plus
value (lines 303-311), otherwise sign, broadcast, and report the receipt
status (a timeout is caught and reported as failure).  Returns the success
flag and the number of broadcasts. -/
def updatePriceFeed (env : Env) : Bool × ℕ :=
  match env.fee with
  | none => (false, 0)
  | some fee =>
    let tx := buildTx env fee
    if env.balance < tx.gas * tx.gasPrice + tx.value then (false, 0)
    else
      match env.receiptStatus with
      | some true => (true, 1)
      | some false => (false, 1)
      | none => (false, 1)

/-- Terminal outcomes of `main` in `fix-oracle.py`; `alreadyWorking` is the
short-circuit success "Oracle is already working! No fix needed." -/
inductive Outcome
  | alreadyWorking
  | fetchFailed
  | updateFailed
  | fixedUnverified
  | fixedAndVerified
  deriving DecidableEq, Repr

/-- `main` of `fix-oracle.py` lines 343-388: diagnose (pure printing), test
the current read; on success return at once with no fetch and no send;
otherwise fetch from Hermes (failure returns), update the price feed, and
re-test the read.  Every branch returns normally. -/
def main (env : Env) : Outcome × TxEffects :=
  if env.readOk then (.alreadyWorking, ⟨0, 0⟩)
  else if !env.fetchOk then (.fetchFailed, ⟨1, 0⟩)
  else
    let r := updatePriceFeed env
    if r.1 then
      if env.readOkAfter then (.fixedAndVerified, ⟨1, r.2⟩)
      else (.fixedUnverified, ⟨1, r.2⟩)
    else (.updateFailed, ⟨1, r.2⟩)

/-- One whole process run of `fix-oracle.py`: module-level validation
first — a failure there exits with code 1 having made no feed fetch and no
broadcast — then `main`, after which the script falls off the end of every
branch, so the process exit code is 0 whatever `main` diagnosed. -/
def run (derive : List Char → List Char) (key wallet : List Char) (env : Env) :
    ℕ × TxEffects :=
  match validateStartup derive key wallet with
  | .configError => (1, ⟨0, 0⟩)
  | .ok _ => (0, (main env).2)

end fixOracle

namespace pythonUpdate

/-- Responses the outside world would give one run of `pythonUpdate.py`:
whether the environment variables are set, the RPC connection check, the
contract reads for `--read`, the parsed feed fields and whether the Hermes
request parses, balance, market gas price, nonce, gas estimate (`none`
models estimation failure) and the receipt of a sent transaction. -/
structure Env where
  keySet : Bool
  contractSet : Bool
  connOk : Bool
  readOk : Bool
  fetchOk : Bool
  priceRaw : ℤ
  expo : ℤ
  balance : ℕ
  marketGasPrice : ℕ
  nonce : ℕ
  gasEstimate : Option ℕ
  receiptStatus : Option Bool
  deriving DecidableEq, Repr

/-- The `price_in_cents = int(actual_price * 100)` computation of
`fetch_eth_price` (line 169): for a nonnegative exponent everything stays
exact integer arithmetic; for a negative exponent `actual_price` is a
binary64 float, the product with `100` is rounded to binary64, and `int`
truncates (prices are positive). -/
def priceInCents (priceRaw expo : ℤ) : ℤ :=
  if 0 ≤ expo then priceRaw * ((10 ^ expo.toNat : ℕ) : ℤ) * 100
  else PreRat.pyTrunc
    (PreRat.roundDouble ((hermesDerivedPrice priceRaw expo).mul (PreRat.ofInt 100)))

/-- `fetch_eth_price` of `pythonUpdate.py` lines 129-185: on a successful
request with a parsed section, return the price in cents; any network or
parsing failure returns `None`. -/
def fetchEthPrice (env : Env) : Option ℤ :=
  if env.fetchOk then some (priceInCents env.priceRaw env.expo) else none

/-- Gas price put into the built transaction (line 365):
`int(w3.eth.gas_price * 1.2)`. -/
def txGasPrice (market : ℕ) : ℕ := (PreRat.pyMul1_2 market).toNat

/-- Gas limit after estimation (line 371): `int(gas_estimate * 1.2)`. -/
def txGas (estimate : ℕ) : ℕ := (PreRat.pyMul1_2 estimate).toNat

/-- The update transaction built by `update_price_register`
(lines 358-371): a nonpayable `update` call, so value 0, with the
1.2-buffered market gas price and 1.2-buffered estimated gas. -/
def builtTx (env : Env) (estimate : ℕ) : TxRequest :=
  { value := 0
    gas := txGas estimate
    gasPrice := txGasPrice env.marketGasPrice
    nonce := env.nonce }

/-- `update_price_register` of `pythonUpdate.py` lines 298-418: check the
environment variables and the connection, reject only a balance of exactly
zero (lines 332-334), build the transaction, abort on gas-estimation
failure (lines 369-380), otherwise sign, broadcast, and report the receipt
status.  Returns the success flag and the number of broadcasts. -/
def updatePriceRegister (env : Env) : Bool × ℕ :=
  if !env.keySet then (false, 0)
  else if !env.contractSet then (false, 0)
  else if !env.connOk then (false, 0)
  else if env.balance = 0 then (false, 0)
  else
    match env.gasEstimate with
    | none => (false, 0)
    | some _ =>
      match env.receiptStatus with
      | some true => (true, 1)
      | some false => (false, 1)
      | none => (false, 1)

/-- `read_price_register` of `pythonUpdate.py` lines 214-296: needs the
contract address, a working connection and successful view calls. -/
def readPriceRegister (env : Env) : Bool :=
  env.contractSet && env.connOk && env.readOk

/-- Success of the operation requested on the command line, as `main`
(lines 420-482) judges it before choosing the exit code. -/
def opSucceeds (argv : List String) (env : Env) : Bool :=
  match argv with
  | [flag] =>
    if flag = "--help" then true
    else if flag = "--read" then readPriceRegister env
    else if flag = "--update" then
      match fetchEthPrice env with
      | none => false
      | some _ => (updatePriceRegister env).1
    else false
  | _ => false

/-- Process exit code of `pythonUpdate.py` `main`: `sys.exit(0)` on
success, `sys.exit(1)` on bad arguments, an unknown flag, or any diagnosed
failure of the requested operation. -/
def mainExit (argv : List String) (env : Env) : ℕ :=
  match argv with
  | [flag] =>
    if flag = "--help" then 0
    else if flag = "--read" then (if readPriceRegister env then 0 else 1)
    else if flag = "--update" then
      match fetchEthPrice env with
      | none => 1
      | some _ => if (updatePriceRegister env).1 then 0 else 1
    else 1
  | _ => 1

end pythonUpdate

namespace updateSwapRouter

/-- Responses the outside world would give one run of
`updateSwapRouter.py`. -/
structure Env where
  keySet : Bool
  contractSet : Bool
  connOk : Bool
  readOk : Bool
  fetchOk : Bool
  balance : ℕ
  pythConfigured : Bool
  fee : Option ℕ
  marketGasPrice : ℕ
  nonce : ℕ
  gasEstimate : Option ℕ
  simulateOk : Bool
  receiptStatus : Option Bool
  deriving DecidableEq, Repr

/-- Gas price put into the built transaction (line 314):
`int(w3.eth.gas_price * 1.2)`. -/
def txGasPrice (market : ℕ) : ℕ := (PreRat.pyMul1_2 market).toNat

/-- Gas limit the transaction ends up with (lines 318-335): the
1.2-buffered estimate when estimation succeeds; on estimation failure a
call simulation is tried, and only if it succeeds the fixed limit 100000
is used; `none` means the update is abandoned. -/
def resolvedGas (env : Env) : Option ℕ :=
  match env.gasEstimate with
  | some est => some (PreRat.pyMul1_2 est).toNat
  | none => if env.simulateOk then some 100000 else none

/-- `update_swap_router` of `updateSwapRouter.py` lines 245-378: check the
environment variables and connection, reject only a balance of exactly
zero (lines 274-276), require a configured Pyth oracle and a fee quote,
resolve the gas limit (abandoning on double failure, line 351), otherwise
sign, broadcast and report the receipt status.  Returns the success flag
and the number of broadcasts. -/
def updateRouter (env : Env) : Bool × ℕ :=
  if !env.keySet || !env.contractSet then (false, 0)
  else if !env.connOk then (false, 0)
  else if env.balance = 0 then (false, 0)
  else if !env.pythConfigured then (false, 0)
  else
    match env.fee with
    | none => (false, 0)
    | some _ =>
      match resolvedGas env with
      | none => (false, 0)
      | some _ =>
        match env.receiptStatus with
        | some true => (true, 1)
        | some false => (false, 1)
        | none => (false, 1)

/-- `test_swap_with_update` of lines 380-467: same shape, but no balance,
oracle or fee check, and gas-estimation failure aborts at once
(lines 438-440). -/
def testSwap (env : Env) : Bool × ℕ :=
  if !env.keySet || !env.contractSet then (false, 0)
  else if !env.connOk then (false, 0)
  else
    match env.gasEstimate with
    | none => (false, 0)
    | some _ =>
      match env.receiptStatus with
      | some true => (true, 1)
      | some false => (false, 1)
      | none => (false, 1)

/-- `read_swap_router_state` of lines 186-243. -/
def readState (env : Env) : Bool :=
  env.contractSet && env.connOk && env.readOk

/-- Success of the requested operation as `main` (lines 469-514) judges
it. -/
def opSucceeds (argv : List String) (env : Env) : Bool :=
  match argv with
  | [flag] =>
    if flag = "--help" then true
    else if flag = "--read" then readState env
    else if flag = "--update" then
      if !env.fetchOk then false else (updateRouter env).1
    else if flag = "--test-swap" then
      if !env.fetchOk then false else (testSwap env).1
    else false
  | _ => false

/-- Process exit code of `updateSwapRouter.py` `main`: 0 on success, 1 on
bad arguments, an unknown flag, or any diagnosed failure. -/
def mainExit (argv : List String) (env : Env) : ℕ :=
  match argv with
  | [flag] =>
    if flag = "--help" then 0
    else if flag = "--read" then (if readState env then 0 else 1)
    else if flag = "--update" then
      if !env.fetchOk then 1 else (if (updateRouter env).1 then 0 else 1)
    else if flag = "--test-swap" then
      if !env.fetchOk then 1 else (if (testSwap env).1 then 0 else 1)
    else 1
  | _ => 1

end updateSwapRouter

namespace uniRouter

/-- WETH token address constant of `uni-router.py` line 36. -/
def WETH_ADDRESS : List Char := "0x980B62Da83eFf3D4576C647993b0c1D7faf17c73".data

/-- USDC token address constant of `uni-router.py` line 37. -/
def USDC_ADDRESS : List Char := "0x75faf114eafb1BDbe2F0316DF893fd58CE46AA4d".data

/-- Zero address used for the hooks field of the pool key (line 169). -/
def ZERO_ADDRESS : List Char := "0x0000000000000000000000000000000000000000".data

/-- Uniswap V4 pool key tuple as built by `build_pool_key` (lines 164-170). -/
structure PoolKey where
  currency0 : List Char
  currency1 : List Char
  fee : ℕ
  tickSpacing : ℕ
  hooks : List Char
  deriving DecidableEq

/-- `build_pool_key` of `uni-router.py` lines 149-170: pick the checksummed
WETH/USDC addresses in the order given by the direction flag, then swap
them if `currency0.lower() > currency1.lower()` so the Uniswap V4 ordering
requirement holds.  `checksum` stands for `w3.to_checksum_address`, which
only changes the letter case of an address. -/
def buildPoolKey (checksum : List Char → List Char) (ethToUsd : Bool) : PoolKey :=
  let c0 := if ethToUsd then checksum WETH_ADDRESS else checksum USDC_ADDRESS
  let c1 := if ethToUsd then checksum USDC_ADDRESS else checksum WETH_ADDRESS
  if pyStrLt (pyLower c1) (pyLower c0) then
    ⟨c1, c0, 3000, 60, ZERO_ADDRESS⟩
  else
    ⟨c0, c1, 3000, 60, ZERO_ADDRESS⟩

/-- Key format validation of `uni-router.py` lines 381-382:
`clean_key = private_key.replace('0x', '').lower()` must be exactly 64
lowercase hex characters. -/
def validFormat (k : List Char) : Bool :=
  let ck := pyLower (pyReplace0x k)
  ck.length = 64 && ck.all isLowerHexChar

/-- Account derivation in `execute_swap` (line 208):
`Account.from_key(private_key)` receives the original key string and
accepts it with or without a `0x` prefix; `derive` stands for the address
derivation from the 32 key bytes. -/
def accountOf (derive : List Char → List Char) (k : List Char) : List Char :=
  derive (drop0xHead k)

end uniRouter

/-- Account derivation in `update_price_register` of `pythonUpdate.py`
lines 320-323 and `update_swap_router` of `updateSwapRouter.py`
lines 260-263: strip a leading `0x`, then `Account.from_key`. -/
def pyUpdateAccountOf (derive : List Char → List Char) (k : List Char) : List Char :=
  derive (drop0xHead k)

/-- Helper: dropping while a predicate that fails on every element drops
nothing. -/
theorem dropWhile_eq_self_of_forall {p : Char → Bool} :
    ∀ l : List Char, (∀ c ∈ l, p c = false) → l.dropWhile p = l
  | [], _ => rfl
  | a :: l, h => by
    rw [List.dropWhile_cons, h a (List.mem_cons_self a l)]
    simp

/-- Helper: a dropWhile result of full length dropped nothing. -/
theorem dropWhile_eq_self_of_length {p : Char → Bool} :
    ∀ l : List Char, (l.dropWhile p).length = l.length → l.dropWhile p = l
  | [], _ => rfl
  | a :: l, h => by
    by_cases hpa : p a
    · rw [List.dropWhile_cons, if_pos hpa] at h
      have hle := (List.dropWhile_sublist (l := l) p).length_le
      simp only [List.length_cons] at h
      omega
    · rw [List.dropWhile_cons, if_neg hpa]

/-- Stripping never lengthens a string. -/
theorem pyStrip_length_le (l : List Char) : (pyStrip l).length ≤ l.length := by
  unfold pyStrip
  calc (((l.dropWhile isPySpace).reverse.dropWhile isPySpace).reverse).length
      = ((l.dropWhile isPySpace).reverse.dropWhile isPySpace).length :=
        List.length_reverse _
    _ ≤ (l.dropWhile isPySpace).reverse.length :=
        (List.dropWhile_sublist isPySpace).length_le
    _ = (l.dropWhile isPySpace).length := List.length_reverse _
    _ ≤ l.length := (List.dropWhile_sublist isPySpace).length_le

/-- A string with no whitespace is unchanged by stripping. -/
theorem pyStrip_eq_self (l : List Char) (h : ∀ c ∈ l, isPySpace c = false) :
    pyStrip l = l := by
  unfold pyStrip
  rw [dropWhile_eq_self_of_forall l h,
    dropWhile_eq_self_of_forall l.reverse (fun c hc => h c (List.mem_reverse.1 hc)),
    List.reverse_reverse]

/-- A strip result of full length stripped nothing. -/
theorem pyStrip_eq_self_of_length (l : List Char)
    (h : (pyStrip l).length = l.length) : pyStrip l = l := by
  unfold pyStrip at h ⊢
  have h1 : ((l.dropWhile isPySpace).reverse.dropWhile isPySpace).length
      ≤ (l.dropWhile isPySpace).reverse.length :=
    (List.dropWhile_sublist isPySpace).length_le
  have h2 : (l.dropWhile isPySpace).length ≤ l.length :=
    (List.dropWhile_sublist isPySpace).length_le
  rw [List.length_reverse] at h
  rw [List.length_reverse] at h1
  have hfull : (l.dropWhile isPySpace).length = l.length := by omega
  have hinner : ((l.dropWhile isPySpace).reverse.dropWhile isPySpace).length
      = (l.dropWhile isPySpace).reverse.length := by
    rw [List.length_reverse]; omega
  rw [dropWhile_eq_self_of_length _ hinner, List.reverse_reverse,
    dropWhile_eq_self_of_length _ hfull]

/-- Removing a `0x` head never lengthens a string. -/
theorem drop0xHead_length_le (l : List Char) : (drop0xHead l).length ≤ l.length := by
  unfold drop0xHead
  by_cases h : l.take 2 = ['0', 'x']
  · rw [if_pos h, List.length_drop]; omega
  · rw [if_neg h]

/-- A `0x`-head removal of full length removed nothing. -/
theorem drop0xHead_eq_self_of_length (l : List Char)
    (h : (drop0xHead l).length = l.length) : drop0xHead l = l := by
  unfold drop0xHead at h ⊢
  by_cases h0 : l.take 2 = ['0', 'x']
  · rw [if_pos h0] at h
    have h2 : (l.take 2).length = 2 := by rw [h0]; rfl
    rw [List.length_take] at h2
    rw [List.length_drop] at h
    omega
  · rw [if_neg h0]

/-- A hex digit is not whitespace. -/
theorem not_space_of_hex (c : Char) (h : isHexChar c = true) :
    isPySpace c = false := by
  by_contra hs
  simp only [Bool.not_eq_false] at hs
  simp only [isPySpace, List.mem_cons, decide_eq_true_eq,
    List.not_mem_nil, or_false] at hs
  rcases hs with rfl | rfl | rfl | rfl | rfl | rfl <;> exact absurd h (by decide)

/-- An all-hex string is unchanged by removing a `0x` head, because `x` is
not a hex digit. -/
theorem drop0xHead_eq_self_of_hex (l : List Char)
    (h : ∀ c ∈ l, isHexChar c = true) : drop0xHead l = l := by
  unfold drop0xHead
  rw [if_neg]
  intro htake
  have hx : 'x' ∈ l.take 2 := by rw [htake]; simp
  have hmem := List.take_subset 2 l hx
  have := h 'x' hmem
  exact absurd this (by decide)

/-- Removing the `0x` head of an explicitly prefixed string gives the
tail. -/
theorem drop0xHead_prefixed (l : List Char) :
    drop0xHead ('0' :: 'x' :: l) = l := by
  unfold drop0xHead
  rw [if_pos (by simp [List.take])]
  rfl

/-- An all-hex string is unchanged by `replace('0x', '')`, because `x` is
not a hex digit. -/
theorem pyReplace0x_eq_self_of_hex :
    ∀ l : List Char, (∀ c ∈ l, isHexChar c = true) → pyReplace0x l = l
  | [], _ => rfl
  | [c], _ => rfl
  | c :: c' :: rest, h => by
    have hx := h c' (by simp)
    simp only [pyReplace0x]
    rw [if_neg (by rintro ⟨h0, h1⟩; rw [h1] at hx; exact absurd hx (by decide))]
    rw [pyReplace0x_eq_self_of_hex (c' :: rest)
      (fun d hd => h d (by simp only [List.mem_cons] at hd ⊢; tauto))]

/-- Cleaning of `fix-oracle.py` leaves an all-hex key unchanged. -/
theorem cleanKey_eq_self_of_hex (l : List Char)
    (h : ∀ c ∈ l, isHexChar c = true) : fixOracle.cleanKey l = l := by
  unfold fixOracle.cleanKey
  rw [pyStrip_eq_self l (fun c hc => not_space_of_hex c (h c hc)),
    drop0xHead_eq_self_of_hex l h]

/-- Cleaning of `fix-oracle.py` removes exactly the `0x` head from a
prefixed all-hex key. -/
theorem cleanKey_prefixed_of_hex (l : List Char)
    (h : ∀ c ∈ l, isHexChar c = true) :
    fixOracle.cleanKey ('0' :: 'x' :: l) = l := by
  unfold fixOracle.cleanKey
  have hns : ∀ c ∈ ('0' :: 'x' :: l), isPySpace c = false := by
    intro c hc
    rcases List.mem_cons.1 hc with rfl | hc
    · decide
    rcases List.mem_cons.1 hc with rfl | hc
    · decide
    · exact not_space_of_hex c (h c hc)
  rw [pyStrip_eq_self _ hns, drop0xHead_prefixed]

/-- Cleaning never lengthens a key. -/
theorem cleanKey_length_le (l : List Char) :
    (fixOracle.cleanKey l).length ≤ l.length := by
  unfold fixOracle.cleanKey
  calc (drop0xHead (pyStrip l)).length ≤ (pyStrip l).length :=
        drop0xHead_length_le _
    _ ≤ l.length := pyStrip_length_le _

/-- A cleaning result of full length cleaned nothing. -/
theorem cleanKey_eq_self_of_length (l : List Char)
    (h : (fixOracle.cleanKey l).length = l.length) : fixOracle.cleanKey l = l := by
  unfold fixOracle.cleanKey at h ⊢
  have h1 : (drop0xHead (pyStrip l)).length ≤ (pyStrip l).length :=
    drop0xHead_length_le _
  have h2 : (pyStrip l).length ≤ l.length := pyStrip_length_le _
  have hstrip : pyStrip l = l := pyStrip_eq_self_of_length l (by omega)
  rw [hstrip] at h ⊢
  exact drop0xHead_eq_self_of_length l h

/-- Claim C1, counterexample: the claim asserts the fetch operation derives
rawPrice times ten to the exponent exactly, but `oracle-fix-working.py`
(cited source, lines 140-141) divides the raw price by the float `1e8`
regardless of the exponent: for the response rawPrice 1, exponent 0 the
code displays the binary64 value near `1e-8`, not the exact value 1. -/
theorem C1_counterexample :
    PreRat.toQ (workingDisplayedPrice 1) ≠ specDerivedPrice 1 0 := by
  have h : workingDisplayedPrice 1 = ⟨6044629098073146, 604462909807314587353088⟩ := by
    decide
  have hs : specDerivedPrice 1 0 = 1 := by
    simp [specDerivedPrice]
  rw [h, hs, PreRat.toQ]
  norm_num

/-- Claim C1, amended: for a nonnegative exponent the derived price of the
`price_val * (10 ** expo)` fetch computation equals rawPrice times ten to
the exponent exactly, and the confidence is scaled by the identical
expression (for a negative exponent the code evaluates the product in
binary64 floating point, and `oracle-fix-working.py` ignores the exponent
altogether). -/
theorem C1_amended_exact_scaling (p c e : ℤ) (h : 0 ≤ e) :
    PreRat.toQ (hermesDerivedPrice p e) = specDerivedPrice p e ∧
      hermesDerivedConf c e = hermesDerivedPrice c e := by
  constructor
  · simp only [hermesDerivedPrice, specDerivedPrice, if_pos h, PreRat.ofInt, PreRat.toQ]
    push_cast
    ring
  · rfl

/-- Claim C1, witness for the amended theorem at rawPrice 3, confidence 5,
exponent 2. -/
theorem C1_amended_witness :
    (0 : ℤ) ≤ 2 ∧
      (PreRat.toQ (hermesDerivedPrice 3 2) = specDerivedPrice 3 2 ∧
        hermesDerivedConf 5 2 = hermesDerivedPrice 5 2) :=
  ⟨by decide, C1_amended_exact_scaling 3 5 2 (by decide)⟩

/-- Claim C6: for the feed response with exponent -8 and raw price
300000000000, the derived price `price_val * (10 ** expo)` computed by the
fetch operation equals exactly 3000 (the binary64 rounding happens to land
on the exact value here). -/
theorem C6_derived_price_3000 :
    PreRat.toQ (hermesDerivedPrice 300000000000 (-8)) = 3000 := by
  have h : hermesDerivedPrice 300000000000 (-8) = ⟨6597069766656000, 2199023255552⟩ := by
    decide
  rw [h, PreRat.toQ]
  norm_num

/-- Claim C2, counterexample: `pythonUpdate.py` (cited source,
`update_price_register` lines 329-336) only rejects a balance of exactly
zero; with balance 1 wei, market gas price 10^9 and gas estimate 100000
the built transaction costs 120000 gas at 1200000000 wei each, far above
the balance, yet the script signs and broadcasts it (one send) instead of
failing with InsufficientFunds before broadcast. -/
theorem C2_counterexample :
    (⟨true, true, true, true, true, 0, 0, 1, 1000000000, 0, some 100000,
        some true⟩ : pythonUpdate.Env).balance <
      (pythonUpdate.builtTx
          ⟨true, true, true, true, true, 0, 0, 1, 1000000000, 0, some 100000,
            some true⟩ 100000).gas *
        (pythonUpdate.builtTx
          ⟨true, true, true, true, true, 0, 0, 1, 1000000000, 0, some 100000,
            some true⟩ 100000).gasPrice +
        (pythonUpdate.builtTx
          ⟨true, true, true, true, true, 0, 0, 1, 1000000000, 0, some 100000,
            some true⟩ 100000).value ∧
    (pythonUpdate.updatePriceRegister
        ⟨true, true, true, true, true, 0, 0, 1, 1000000000, 0, some 100000,
          some true⟩).2 = 1 := by
  constructor
  · decide
  · decide

/-- Claim C2, amended: `fix-oracle.py` does check the full requirement —
whenever the balance is below gas times gas price plus value it returns
failure with no broadcast — while `pythonUpdate.py` checks only for a
zero balance before broadcasting. -/
theorem C2_amended_balance_check :
    (∀ (env : fixOracle.Env) (f : ℕ), env.fee = some f →
      env.balance < (fixOracle.buildTx env f).gas * (fixOracle.buildTx env f).gasPrice +
        (fixOracle.buildTx env f).value →
      fixOracle.updatePriceFeed env = (false, 0)) ∧
    (∀ env : pythonUpdate.Env, env.keySet = true → env.contractSet = true →
      env.connOk = true → env.balance = 0 →
      pythonUpdate.updatePriceRegister env = (false, 0)) := by
  constructor
  · intro env f hf hlt
    simp only [fixOracle.updatePriceFeed, hf]
    rw [if_pos hlt]
  · intro env h1 h2 h3 h4
    simp [pythonUpdate.updatePriceRegister, h1, h2, h3, h4]

/-- Claim C2, witness: the amended theorem applied at a concrete
environment with balance 1 below a required cost of 200001 (fix-oracle
path) and at a concrete zero-balance environment (pythonUpdate path). -/
theorem C2_amended_witness :
    fixOracle.updatePriceFeed
        ⟨false, false, true, some 1, some 0, 4, 0, 1, some true⟩ = (false, 0) ∧
      pythonUpdate.updatePriceRegister
        ⟨true, true, true, true, true, 0, 0, 0, 5, 0, some 100, some true⟩ =
        (false, 0) :=
  ⟨C2_amended_balance_check.1 ⟨false, false, true, some 1, some 0, 4, 0, 1, some true⟩
      1 rfl (by decide),
    C2_amended_balance_check.2 ⟨true, true, true, true, true, 0, 0, 0, 5, 0, some 100,
      some true⟩ rfl rfl rfl rfl⟩

/-- Claim C3: when the initial on-chain read succeeds, `main` of
`fix-oracle.py` short-circuits to its success terminal ("Oracle is already
working! No fix needed.") with zero feed fetches and zero transaction
broadcasts. -/
theorem C3_read_success_noop (env : fixOracle.Env) (h : env.readOk = true) :
    fixOracle.main env = (.alreadyWorking, ⟨0, 0⟩) := by
  simp [fixOracle.main, h]

/-- Claim C3, witness at a concrete environment with a succeeding initial
read. -/
theorem C3_witness :
    (⟨true, true, true, some 0, some 0, 1, 0, 10, some true⟩ : fixOracle.Env).readOk
        = true ∧
      fixOracle.main ⟨true, true, true, some 0, some 0, 1, 0, 10, some true⟩ =
        (.alreadyWorking, ⟨0, 0⟩) :=
  ⟨rfl, C3_read_success_noop ⟨true, true, true, some 0, some 0, 1, 0, 10, some true⟩ rfl⟩

/-- Claim C4, counterexample: the claim asserts every update path falls
back to a fixed gas ceiling on estimation failure and still attempts
submission, but `pythonUpdate.py` (cited source, lines 369-380) aborts:
with a failing gas estimate and everything else healthy the run returns
failure having broadcast nothing. -/
theorem C4_counterexample :
    pythonUpdate.updatePriceRegister
        ⟨true, true, true, true, true, 0, 0, 1000000000000000000, 1000000000, 0,
          none, some true⟩ = (false, 0) := by
  decide

/-- Claim C4, amended: on gas-estimation failure `fix-oracle.py` falls
back to 150000 gas (200000 after its buffer) and still attempts
submission when the balance suffices; `updateSwapRouter.py` falls back to
the fixed 100000 gas only when its call simulation succeeds;
`pythonUpdate.py` aborts without submitting. -/
theorem C4_amended_gas_fallback :
    (∀ (env : fixOracle.Env) (f : ℕ), env.fee = some f →
      env.gasEstimate = none →
      ¬ env.balance < 200000 * env.gasPrice + f →
      (fixOracle.buildTx env f).gas = 200000 ∧
        (fixOracle.updatePriceFeed env).2 = 1) ∧
    (∀ env : updateSwapRouter.Env, env.keySet = true → env.contractSet = true →
      env.connOk = true → env.balance ≠ 0 → env.pythConfigured = true →
      env.fee = some 0 → env.gasEstimate = none → env.simulateOk = true →
      updateSwapRouter.resolvedGas env = some 100000 ∧
        (updateSwapRouter.updateRouter env).2 = 1) ∧
    (∀ env : pythonUpdate.Env, env.keySet = true → env.contractSet = true →
      env.connOk = true → env.balance ≠ 0 → env.gasEstimate = none →
      pythonUpdate.updatePriceRegister env = (false, 0)) := by
  refine ⟨?_, ?_, ?_⟩
  · intro env f hf hest hbal
    have hgas : (fixOracle.buildTx env f).gas = 200000 := by
      simp [fixOracle.buildTx, hest]
    refine ⟨hgas, ?_⟩
    simp only [fixOracle.updatePriceFeed, hf]
    rw [if_neg (by simpa [fixOracle.buildTx, hest] using hbal)]
    rcases env.receiptStatus with _ | b
    · rfl
    · cases b <;> rfl
  · intro env h1 h2 h3 h4 h5 h6 h7 h8
    have hgas : updateSwapRouter.resolvedGas env = some 100000 := by
      simp [updateSwapRouter.resolvedGas, h7, h8]
    refine ⟨hgas, ?_⟩
    simp only [updateSwapRouter.updateRouter, h1, h2, h3, h5, h6, hgas]
    simp only [Bool.not_true, Bool.false_or, Bool.or_self, if_neg h4]
    rcases env.receiptStatus with _ | b
    · simp [h4]
    · cases b <;> simp [h4]
  · intro env h1 h2 h3 h4 h5
    simp [pythonUpdate.updatePriceRegister, h1, h2, h3, h4, h5]

/-- Claim C4, witness: the amended theorem applied at concrete
environments whose gas estimation fails. -/
theorem C4_amended_witness :
    ((fixOracle.buildTx ⟨false, false, true, some 7, none, 2, 0, 400007, some true⟩
        7).gas = 200000 ∧
      (fixOracle.updatePriceFeed
        ⟨false, false, true, some 7, none, 2, 0, 400007, some true⟩).2 = 1) ∧
    (updateSwapRouter.resolvedGas
        ⟨true, true, true, true, true, 5, true, some 0, 9, 0, none, true, some true⟩ =
        some 100000 ∧
      (updateSwapRouter.updateRouter
        ⟨true, true, true, true, true, 5, true, some 0, 9, 0, none, true,
          some true⟩).2 = 1) ∧
    pythonUpdate.updatePriceRegister
        ⟨true, true, true, true, true, 0, 0, 5, 9, 0, none, some true⟩ = (false, 0) :=
  ⟨C4_amended_gas_fallback.1 _ 7 rfl rfl (by decide),
    C4_amended_gas_fallback.2.1 _ rfl rfl rfl (by decide) rfl rfl rfl rfl,
    C4_amended_gas_fallback.2.2 _ rfl rfl rfl (by decide) rfl⟩

/-- Claim C5: a 64 hex character key whose derived address matches the
configured wallet passes the module-level validation of `fix-oracle.py`;
a 63 character key, or a 64 character key containing a non-hex character,
makes the whole run exit with code 1 having performed no feed fetch and no
broadcast (the validation runs before any network request). -/
theorem C5_key_validation (derive : List Char → List Char) (k wallet : List Char) :
    (k.length = 64 → (∀ c ∈ k, isHexChar c = true) →
      pyLower (derive k) = pyLower wallet →
      fixOracle.validateStartup derive k wallet = .ok (derive k)) ∧
    (k.length = 63 → ∀ env : fixOracle.Env,
      fixOracle.run derive k wallet env = (1, ⟨0, 0⟩)) ∧
    (k.length = 64 → (∃ c ∈ k, isHexChar c = false) → ∀ env : fixOracle.Env,
      fixOracle.run derive k wallet env = (1, ⟨0, 0⟩)) := by
  refine ⟨?_, ?_, ?_⟩
  · intro hlen hhex hmatch
    have hck := cleanKey_eq_self_of_hex k hhex
    simp [fixOracle.validateStartup, hck, hlen, List.all_eq_true.2 hhex, hmatch]
  · intro hlen env
    have hle := cleanKey_length_le k
    have hne : (fixOracle.cleanKey k).length ≠ 64 := by omega
    simp [fixOracle.run, fixOracle.validateStartup, hne]
  · intro hlen hbad env
    by_cases hck64 : (fixOracle.cleanKey k).length = 64
    · have hkk : fixOracle.cleanKey k = k :=
        cleanKey_eq_self_of_length k (by rw [hck64, hlen])
      obtain ⟨c, hc, hbadc⟩ := hbad
      have hall : k.all isHexChar = false :=
        List.all_eq_false.2 ⟨c, hc, by simp [hbadc]⟩
      simp [fixOracle.run, fixOracle.validateStartup, hkk, hck64, hall]
    · simp [fixOracle.run, fixOracle.validateStartup, hck64]

/-- Claim C5, witness: a matching 64 hex key passes; a 63 character key
and a 64 character key containing the non-hex letter z are rejected with
exit code 1 and zero effects. -/
theorem C5_witness :
    fixOracle.validateStartup (fun _ => "0xabc".data) (List.replicate 64 'a')
        "0xABC".data = .ok "0xabc".data ∧
      fixOracle.run (fun _ => "0xabc".data) (List.replicate 63 'a') "0xABC".data
        ⟨true, true, true, some 0, some 0, 0, 0, 0, some true⟩ = (1, ⟨0, 0⟩) ∧
      fixOracle.run (fun _ => "0xabc".data) ('z' :: List.replicate 63 'a')
        "0xABC".data ⟨true, true, true, some 0, some 0, 0, 0, 0, some true⟩ =
        (1, ⟨0, 0⟩) :=
  ⟨(C5_key_validation (fun _ => "0xabc".data) (List.replicate 64 'a') "0xABC".data).1
      (by decide) (by decide) (by decide),
    (C5_key_validation (fun _ => "0xabc".data) (List.replicate 63 'a') "0xABC".data).2.1
      (by decide) _,
    (C5_key_validation (fun _ => "0xabc".data) ('z' :: List.replicate 63 'a')
        "0xABC".data).2.2 (by decide) ⟨'z', by simp, by decide⟩ _⟩

/-- Claim C7, counterexample: the claim says every built transaction
carries either a fixed configured gas price or exactly 1.2 times the
market gas price, but `fix-oracle.py` (cited source, lines 286-297) puts
the unbuffered market gas price into the transaction: at markets 10 and 20
the carried prices are 10 and 20, which are neither one fixed value nor
1.2 times the market. -/
theorem C7_counterexample :
    ¬ ∃ c : ℚ, ∀ m : ℕ,
      ((fixOracle.buildTx ⟨false, false, true, some 0, some 100000, m, 0, 0,
          some true⟩ 0).gasPrice : ℚ) = c ∨
      ((fixOracle.buildTx ⟨false, false, true, some 0, some 100000, m, 0, 0,
          some true⟩ 0).gasPrice : ℚ) = 6 / 5 * (m : ℚ) := by
  rintro ⟨c, h⟩
  have h10 := h 10
  have h20 := h 20
  simp only [fixOracle.buildTx] at h10 h20
  rcases h10 with h10 | h10
  · rcases h20 with h20 | h20
    · rw [← h10] at h20
      norm_num at h20
    · norm_num at h20
  · norm_num at h10

/-- Claim C7, amended: no script uses a fixed configured gas price:
`fix-oracle.py` carries the unbuffered market gas price, while
`pythonUpdate.py` and `updateSwapRouter.py` carry `int(market * 1.2)`
computed in binary64 floating point (at the realistic market price of one
gwei this is exactly the 20 percent buffered value). -/
theorem C7_amended_gas_price_policy :
    (∀ (env : fixOracle.Env) (f : ℕ),
      (fixOracle.buildTx env f).gasPrice = env.gasPrice) ∧
    (∀ (env : pythonUpdate.Env) (est : ℕ),
      (pythonUpdate.builtTx env est).gasPrice =
        (PreRat.pyMul1_2 env.marketGasPrice).toNat) ∧
    pythonUpdate.txGasPrice 1000000000 = 1200000000 ∧
    updateSwapRouter.txGasPrice 1000000000 = 1200000000 :=
  ⟨fun _ _ => rfl, fun _ _ => rfl, by decide, by decide⟩

/-- Claim C8, counterexample: the claim says every diagnosed failure ends
with exit code 1, but when the Hermes fetch of `fix-oracle.py` fails,
`main` prints the failure and returns normally, so after a valid startup
the process exit code is 0. -/
theorem C8_counterexample :
    fixOracle.main ⟨false, false, false, some 0, some 0, 0, 0, 0, some true⟩ =
        (.fetchFailed, ⟨1, 0⟩) ∧
      fixOracle.run (fun _ => "0xabc".data) (List.replicate 64 'a') "0xABC".data
        ⟨false, false, false, some 0, some 0, 0, 0, 0, some true⟩ = (0, ⟨1, 0⟩) := by
  exact ⟨by decide, by decide⟩

/-- Claim C8, amended: `pythonUpdate.py` and `updateSwapRouter.py` exit
with code 0 exactly when the requested operation succeeds and with code 1
on bad arguments or any diagnosed failure; `fix-oracle.py` exits with
code 1 only for startup configuration failures and exits 0 from every
post-startup path, successful or not. -/
theorem C8_amended_exit_codes :
    (∀ (argv : List String) (env : pythonUpdate.Env),
      pythonUpdate.mainExit argv env =
        if pythonUpdate.opSucceeds argv env then 0 else 1) ∧
    (∀ (argv : List String) (env : updateSwapRouter.Env),
      updateSwapRouter.mainExit argv env =
        if updateSwapRouter.opSucceeds argv env then 0 else 1) ∧
    (∀ (derive : List Char → List Char) (key wallet : List Char)
        (env : fixOracle.Env),
      (fixOracle.run derive key wallet env).1 =
        if fixOracle.validateStartup derive key wallet = .configError then 1
        else 0) := by
  refine ⟨?_, ?_, ?_⟩
  · intro argv env
    rcases argv with _ | ⟨f, _ | ⟨g, t⟩⟩
    · rfl
    · simp only [pythonUpdate.mainExit, pythonUpdate.opSucceeds,
        pythonUpdate.fetchEthPrice]
      by_cases h1 : f = "--help"
      · simp [h1]
      · by_cases h2 : f = "--read"
        · simp only [h1, h2, if_true, if_false]
          cases pythonUpdate.readPriceRegister env <;> simp
        · by_cases h3 : f = "--update"
          · simp only [h1, h2, h3, if_true, if_false]
            cases hfo : env.fetchOk <;> simp only [if_true, if_false, Bool.false_eq_true]
            · simp
            · cases (pythonUpdate.updatePriceRegister env).1 <;> simp
          · simp [h1, h2, h3]
    · rfl
  · intro argv env
    rcases argv with _ | ⟨f, _ | ⟨g, t⟩⟩
    · rfl
    · simp only [updateSwapRouter.mainExit, updateSwapRouter.opSucceeds]
      by_cases h1 : f = "--help"
      · simp [h1]
      · by_cases h2 : f = "--read"
        · simp only [h1, h2, if_true, if_false]
          cases updateSwapRouter.readState env <;> simp
        · by_cases h3 : f = "--update"
          · simp only [h1, h2, h3, if_true, if_false]
            cases hfo : env.fetchOk <;> simp only [Bool.not_true, Bool.not_false]
            · simp
            · cases (updateSwapRouter.updateRouter env).1 <;> simp
          · by_cases h4 : f = "--test-swap"
            · simp only [h1, h2, h3, h4, if_true, if_false]
              cases hfo : env.fetchOk <;> simp only [Bool.not_true, Bool.not_false]
              · simp
              · cases (updateSwapRouter.testSwap env).1 <;> simp
            · simp [h1, h2, h3, h4]
    · rfl
  · intro derive key wallet env
    unfold fixOracle.run
    cases h : fixOracle.validateStartup derive key wallet <;> simp [h]

/-- Claim C9: for both directions the pool key built by `build_pool_key`
of `uni-router.py` has its currency0 address strictly below its currency1
address when the two are compared case-insensitively (`checksum` may
change only the letter case of an address, which is all
`to_checksum_address` does). -/
theorem C9_pool_key_ordered (checksum : List Char → List Char)
    (hcs : ∀ a, pyLower (checksum a) = pyLower a) (ethToUsd : Bool) :
    pyStrLt (pyLower (uniRouter.buildPoolKey checksum ethToUsd).currency0)
      (pyLower (uniRouter.buildPoolKey checksum ethToUsd).currency1) = true := by
  have h1 : pyStrLt (pyLower (checksum uniRouter.WETH_ADDRESS))
      (pyLower (checksum uniRouter.USDC_ADDRESS)) = false := by
    rw [hcs, hcs]; decide
  have h2 : pyStrLt (pyLower (checksum uniRouter.USDC_ADDRESS))
      (pyLower (checksum uniRouter.WETH_ADDRESS)) = true := by
    rw [hcs, hcs]; decide
  cases ethToUsd <;> simp [uniRouter.buildPoolKey, h1, h2]

/-- Claim C9, witness: the theorem applied to the identity checksum and
the ETH to USD direction. -/
theorem C9_witness :
    pyStrLt (pyLower (uniRouter.buildPoolKey (fun l => l) true).currency0)
      (pyLower (uniRouter.buildPoolKey (fun l => l) true).currency1) = true :=
  C9_pool_key_ordered (fun l => l) (fun _ => rfl) true

/-- Claim C10: for an all-hex key, supplying the bare key and supplying it
with a `0x` head gives the same validation outcome and the same derived
account everywhere keys are loaded: the module validation of
`fix-oracle.py`, the account loading of `pythonUpdate.py` and
`updateSwapRouter.py`, and the format validation and account loading of
`uni-router.py`. -/
theorem C10_prefix_insensitive (derive : List Char → List Char)
    (k wallet : List Char) (hhex : ∀ c ∈ k, isHexChar c = true) :
    fixOracle.validateStartup derive k wallet =
        fixOracle.validateStartup derive ('0' :: 'x' :: k) wallet ∧
      pyUpdateAccountOf derive k = pyUpdateAccountOf derive ('0' :: 'x' :: k) ∧
      uniRouter.validFormat k = uniRouter.validFormat ('0' :: 'x' :: k) ∧
      uniRouter.accountOf derive k = uniRouter.accountOf derive ('0' :: 'x' :: k) := by
  have hck := cleanKey_eq_self_of_hex k hhex
  have hck2 := cleanKey_prefixed_of_hex k hhex
  have hdp : drop0xHead k = k := drop0xHead_eq_self_of_hex k hhex
  have hdp2 : drop0xHead ('0' :: 'x' :: k) = k := drop0xHead_prefixed k
  have hrep : pyReplace0x k = k := pyReplace0x_eq_self_of_hex k hhex
  have hrep2 : pyReplace0x ('0' :: 'x' :: k) = k := by
    simp [pyReplace0x, hrep]
  refine ⟨?_, ?_, ?_, ?_⟩
  · unfold fixOracle.validateStartup
    rw [hck, hck2]
  · unfold pyUpdateAccountOf
    rw [hdp, hdp2]
  · unfold uniRouter.validFormat
    rw [hrep, hrep2]
  · unfold uniRouter.accountOf
    rw [hdp, hdp2]

/-- Claim C10, witness: the theorem applied to the identity derivation and
a concrete all-hex 64 character key. -/
theorem C10_witness :
    fixOracle.validateStartup (fun l => l) (List.replicate 64 'a') "w".data =
        fixOracle.validateStartup (fun l => l)
          ('0' :: 'x' :: List.replicate 64 'a') "w".data ∧
      pyUpdateAccountOf (fun l => l) (List.replicate 64 'a') =
        pyUpdateAccountOf (fun l => l) ('0' :: 'x' :: List.replicate 64 'a') ∧
      uniRouter.validFormat (List.replicate 64 'a') =
        uniRouter.validFormat ('0' :: 'x' :: List.replicate 64 'a') ∧
      uniRouter.accountOf (fun l => l) (List.replicate 64 'a') =
        uniRouter.accountOf (fun l => l) ('0' :: 'x' :: List.replicate 64 'a') :=
  C10_prefix_insensitive (fun l => l) (List.replicate 64 'a') "w".data (by decide)
